import Mathlib

/-!
Shallow embedding of the stateless execution validator of zk-pig
(`src/generator/execute.go`).

The pipeline is `Execute → execute → prepareContext → preparePreState →
prepareExecParams → execEVM`.  Go values of pointer type that may be nil are
embedded as `Option`; Go `(res, err)` return pairs are embedded either as
`Except` (when the success value is discarded on error in the source) or as an
explicit `Option α × Option Err` pair (for the EVM driver, whose result is
propagated alongside the wrapped error in `execEVM`).

External collaborators that live outside the orchestration file — the geth
header hash, `gethstate.New`, and the decorated EVM driver — are modelled as
components of an `Ext` record that every definition is parameterised over.

To settle the ordering claims of the specification ("detected before any
database work", "before the pre-state view is opened", …) every stage also
emits a list of `Event`s in execution order; the orchestration concatenates
them exactly in the order the Go statements run.
-/

namespace ZkPig

/-- A 256-bit hash, embedded as `Nat` (the hash function itself is never
computed by the orchestration code; it is an external collaborator). -/
abbrev Hash := Nat

/-- Raw byte blobs (bytecodes, trie nodes, transaction payloads). -/
abbrev Bytes := List Nat

/-- Go `error` values, embedded as their message strings (the orchestration
code only ever builds errors with `fmt.Errorf`). -/
abbrev Err := String

/-- A block header: the fields the orchestration reads (`ParentHash`, `Root`,
`Number`) plus an opaque remainder `extra` standing for all other header
fields (they influence the header hash but are never read here). -/
structure Header where
  parentHash : Hash
  root : Hash
  number : Int
  extra : Nat
deriving Repr, DecidableEq

/-- A block of the prover input: a header plus an opaque body. -/
structure Block where
  header : Header
  body : List Bytes
deriving Repr, DecidableEq

/-- The witness of a `ProverInput`.  `ancestors` holds Go `*types.Header`
pointers, hence `Option Header` elements. -/
structure Witness where
  ancestors : List (Option Header)
  codes : List Bytes
  state : List Bytes
deriving Repr, DecidableEq

/-- Chain configuration.  The chain id is a Go `*big.Int`, hence optional. -/
structure ChainConfig where
  chainID : Option Int
deriving Repr, DecidableEq

/-- The provable input consumed by `Execute`. -/
structure ProverInput where
  chainConfig : ChainConfig
  blocks : List Block
  witness : Witness
deriving Repr, DecidableEq

/-- The ephemeral in-memory store (`rawdb.NewMemoryDatabase` wrapped by the
trie and state databases): the headers, bytecodes and trie nodes written into
it by `preparePreState`. -/
structure Store where
  headers : List (Option Header)
  codes : List Bytes
  nodes : List Bytes
deriving Repr, DecidableEq

/-- The store as freshly created by `rawdb.NewMemoryDatabase`. -/
def Store.empty : Store := ⟨[], [], []⟩

/-- Modelled from the spec: `ethereum.WriteHeaders` (the Pre-State Assembler's
`loadAncestors`, §4.1) is a blind bulk load of the ancestor headers into the
store; it inspects no semantic correctness. -/
def writeHeaders (db : Store) (hs : List (Option Header)) : Store :=
  { db with headers := db.headers ++ hs }

/-- Modelled from the spec: `ethereum.WriteCodes` (the Pre-State Assembler's
`loadCodes`, §4.1) stores each bytecode blob, keyed by content hash. -/
def writeCodes (db : Store) (cs : List Bytes) : Store :=
  { db with codes := db.codes ++ cs }

/-- Modelled from the spec: `ethereum.WriteNodesToHashDB` (the Pre-State
Assembler's `loadState`, §4.1) stores each raw trie-node blob, keyed by
content hash. -/
def writeNodesToHashDB (db : Store) (ns : List Bytes) : Store :=
  { db with nodes := db.nodes ++ ns }

/-- Modelled from the spec: the minimal header-chain facade produced by
`ethereum.NewChain` (Chain Context Builder, §4.2); it carries the chain
configuration over the assembled store. -/
structure HeaderChain where
  config : ChainConfig
deriving Repr, DecidableEq

/-- Modelled from the spec: `ethereum.NewChain` (Chain Context Builder, §4.2)
"fails if the chain configuration is malformed (e.g., missing chain ID);
otherwise always succeeds". -/
def newChain (cfg : ChainConfig) (_db : Store) : Except Err HeaderChain :=
  match cfg.chainID with
  | none => .error "missing chain ID"
  | some _ => .ok ⟨cfg⟩

/-- The pre-state view returned by `gethstate.New`: a read path into the
store rooted at a specific state root. -/
structure StateView where
  root : Hash
  db : Store
deriving Repr, DecidableEq

/-- `vm.Config`: the only field the orchestration sets. -/
structure VMConfig where
  statelessSelfValidation : Bool
deriving Repr, DecidableEq

/-- `evm.ExecParams`, the parameter bundle handed to the EVM driver. -/
structure ExecParams where
  vmConfig : VMConfig
  block : Block
  validate : Bool
  chain : HeaderChain
  state : StateView
deriving Repr, DecidableEq

/-- `core.ProcessResult`: receipts, gas used and the resulting state root. -/
structure ProcessResult where
  receipts : List Bytes
  gasUsed : Nat
  resultingStateRoot : Hash
deriving Repr, DecidableEq

/-- The external collaborators of the orchestration code, all outside
`execute.go`:

* `headerHash` — geth's `Header.Hash()` (keccak of the RLP encoding);
* `stateNew` — geth's `gethstate.New(root, stateDB)`, opening a versioned
  state view at a root against the store, or failing (e.g. missing root);
* `evmExec` — the decorated stateless EVM driver
  (`evm.ExecutorWithTags("evm")(evm.ExecutorWithLog()(evm.NewExecutor()))`),
  returning a Go `(result, error)` pair. -/
structure Ext where
  headerHash : Header → Hash
  stateNew : Hash → Store → Except Err StateView
  evmExec : ExecParams → Option ProcessResult × Option Err

/-- Observable pipeline events, emitted in execution order. -/
inductive Event where
  | storeCreated
  | chainCreated
  | headersWritten
  | codesWritten
  | nodesWritten
  | preStateOpened
  | evmInvoked
deriving Repr, DecidableEq

/-- `executorContext`: the state database and header chain threaded through
the pipeline stages. -/
structure ExecutorContext where
  stateDB : Store
  hc : HeaderChain
deriving Repr, DecidableEq

/-- `executor.prepareContext`: creates the fresh in-memory database and the
chain facade. -/
def prepareContext (inputs : ProverInput) :
    Except Err ExecutorContext × List Event :=
  let db := Store.empty
  match newChain inputs.chainConfig db with
  | .error e => (.error ("failed to create chain: " ++ e), [.storeCreated])
  | .ok hc => (.ok ⟨db, hc⟩, [.storeCreated, .chainCreated])

/-- `executor.preparePreState`: preloads ancestors, bytecodes and pre-state
nodes into the store. -/
def preparePreState (ctx : ExecutorContext) (inputs : ProverInput) :
    ExecutorContext × List Event :=
  let db1 := writeHeaders ctx.stateDB inputs.witness.ancestors
  let db2 := writeCodes db1 inputs.witness.codes
  let db3 := writeNodesToHashDB db2 inputs.witness.state
  ({ ctx with stateDB := db3 },
   [.headersWritten, .codesWritten, .nodesWritten])

/-- `executor.prepareExecParams`: emptiness checks, the first-ancestor check
(`parentHeader == nil || parentHeader.Hash() == inputs.Blocks[0].Header.Hash()`),
opening the pre-state view at the first ancestor's root, and assembly of the
parameter bundle. -/
def prepareExecParams (ext : Ext) (ctx : ExecutorContext)
    (inputs : ProverInput) : Except Err ExecParams × List Event :=
  match inputs.blocks with
  | [] => (.error "no blocks provided", [])
  | b0 :: _ =>
    match inputs.witness.ancestors with
    | [] => (.error "no ancestors provided", [])
    | parentHeader :: _ =>
      match parentHeader with
      | none =>
        (.error "first ancestor must be the parent of the first block", [])
      | some ph =>
        if ext.headerHash ph = ext.headerHash b0.header then
          (.error "first ancestor must be the parent of the first block", [])
        else
          match ext.stateNew ph.root ctx.stateDB with
          | .error e =>
            (.error ("failed to create pre-state from parent root "
              ++ toString ph.root ++ ": " ++ e), [])
          | .ok preState =>
            (.ok { vmConfig := ⟨true⟩
                   block := b0
                   validate := true
                   chain := ctx.hc
                   state := preState }, [.preStateOpened])

/-- `executor.execEVM`: invokes the decorated EVM driver and wraps a failure
with stage context, propagating the driver's result value unchanged. -/
def execEVM (ext : Ext) (execParams : ExecParams) :
    (Option ProcessResult × Option Err) × List Event :=
  match ext.evmExec execParams with
  | (res, some e) => ((res, some ("failed to execute block: " ++ e)), [.evmInvoked])
  | (res, none) => ((res, none), [.evmInvoked])

/-- `executor.execute`: the linear pipeline
`prepareContext → preparePreState → prepareExecParams → execEVM`, each
failure wrapped with stage context and aborting the remaining stages. -/
def execute (ext : Ext) (inputs : ProverInput) :
    (Option ProcessResult × Option Err) × List Event :=
  match prepareContext inputs with
  | (.error e, log1) =>
    ((none, some ("failed to prepare execution context: " ++ e)), log1)
  | (.ok execCtx, log1) =>
    let sp := preparePreState execCtx inputs
    match prepareExecParams ext sp.1 inputs with
    | (.error e, log3) =>
      ((none, some ("failed to prepare execution exec params: " ++ e)),
        log1 ++ sp.2 ++ log3)
    | (.ok execParams, log3) =>
      let r := execEVM ext execParams
      (r.1, log1 ++ sp.2 ++ log3 ++ r.2)

/-- `executor.Execute`, the exported entry point: rejects an empty block list
before any work, then runs the pipeline (the tagging and logging around the
call are observational only). -/
def Execute (ext : Ext) (inputs : ProverInput) :
    (Option ProcessResult × Option Err) × List Event :=
  match inputs.blocks with
  | [] => ((none, some "no blocks provided"), [])
  | _ :: _ => execute ext inputs

/-- The store contents after `preparePreState` on a fresh store: exactly the
witness data, in load order. -/
def witnessStore (w : Witness) : Store :=
  ⟨w.ancestors, w.codes, w.state⟩

/-- Concrete external collaborators used to instantiate theorems: a toy
header hash reading the `extra` field, a state opener that succeeds exactly
when the store holds a node blob matching the requested root, and an EVM
driver that always succeeds. -/
def extJ : Ext where
  headerHash h := h.extra
  stateNew r s :=
    if s.nodes.contains [r] then .ok ⟨r, s⟩ else .error "missing trie node"
  evmExec p := (some ⟨[], 21000, p.block.header.root⟩, none)

/-- A sample parent header: state root `33`, toy hash `5`. -/
def hdrA : Header := ⟨0, 33, 9, 5⟩

/-- A sample first block: declared parent hash `7`, toy hash `6`. -/
def blkX : Block := ⟨⟨7, 44, 10, 6⟩, []⟩

/-- A second sample block, used as an unused trailing block. -/
def blkY : Block := ⟨⟨44, 55, 11, 8⟩, []⟩

/-- Input with a linkage violation: `hdrA` has toy hash `5`, while `blkX`
declares parent hash `7`; the witness carries the node blob for root `33`. -/
def inLinkBroken : ProverInput :=
  ⟨⟨some 1⟩, [blkX], ⟨[some hdrA], [[1, 2]], [[33]]⟩⟩

/-- Input with an empty block list. -/
def inNoBlocks : ProverInput := ⟨⟨some 1⟩, [], ⟨[], [], []⟩⟩

/-- Input with one block but an empty ancestor list. -/
def inNoAncestors : ProverInput := ⟨⟨some 1⟩, [blkX], ⟨[], [], []⟩⟩

/-- Input whose witness lacks the trie node for the parent root `33`. -/
def inMissingRoot : ProverInput := ⟨⟨some 1⟩, [blkX], ⟨[some hdrA], [], []⟩⟩

/-- Input whose first ancestor entry is nil. -/
def inNilAncestor : ProverInput :=
  ⟨⟨some 1⟩, [blkX], ⟨[none, some hdrA], [], []⟩⟩

/-- `inLinkBroken` with a trailing second block appended. -/
def inLinkBrokenTrail : ProverInput :=
  ⟨⟨some 1⟩, [blkX, blkY], ⟨[some hdrA], [[1, 2]], [[33]]⟩⟩

/-- Claim C2: an empty block list is rejected immediately with a descriptive
malformed-request error, before any database work and with no side effects:
no store is created or populated (the event log is empty). -/
theorem C2_empty_blocks_rejected_first (ext : Ext) (inputs : ProverInput)
    (h : inputs.blocks = []) :
    Execute ext inputs = ((none, some "no blocks provided"), []) := by
  simp [Execute, h]

/-- Witness for C2 at the concrete input `inNoBlocks`. -/
theorem C2_empty_blocks_rejected_first_witness :
    inNoBlocks.blocks = [] ∧
      Execute extJ inNoBlocks = ((none, some "no blocks provided"), []) :=
  ⟨rfl, C2_empty_blocks_rejected_first extJ inNoBlocks rfl⟩

/-- Claim C3, counterexample: on a concrete input with one block and no
ancestors, `Execute` does return the malformed-request error, but it is
detected only after the store has been created and fully populated with the
witness data — refuting "detected before any database work is performed
(before the witness store is created or populated)". -/
theorem C3_empty_ancestors_counterexample :
    inNoAncestors.blocks ≠ [] ∧
    inNoAncestors.witness.ancestors = [] ∧
    (Execute extJ inNoAncestors).1.2 =
      some "failed to prepare execution exec params: no ancestors provided" ∧
    Event.storeCreated ∈ (Execute extJ inNoAncestors).2 ∧
    Event.nodesWritten ∈ (Execute extJ inNoAncestors).2 := by
  refine ⟨by simp [inNoAncestors], rfl, rfl, ?_, ?_⟩ <;> decide

/-- Claim C3 as amended: with a well-formed chain configuration, an empty
ancestor list on a non-empty block list yields the malformed-request error;
the check fires only after the ephemeral store is created and populated, but
still before the pre-state view is opened and before the EVM runs (the event
log ends with the population events and contains neither `preStateOpened` nor
`evmInvoked`). -/
theorem C3_empty_ancestors_error (ext : Ext) (inputs : ProverInput)
    (hb : inputs.blocks ≠ []) (ha : inputs.witness.ancestors = [])
    (hc : inputs.chainConfig.chainID.isSome) :
    Execute ext inputs =
      ((none,
        some "failed to prepare execution exec params: no ancestors provided"),
       [.storeCreated, .chainCreated, .headersWritten, .codesWritten,
        .nodesWritten]) := by
  obtain ⟨c, hcc⟩ := Option.isSome_iff_exists.mp hc
  rcases hbl : inputs.blocks with _ | ⟨b0, bs⟩
  · exact absurd hbl hb
  · simp [Execute, execute, prepareContext, newChain, hcc, preparePreState,
      prepareExecParams, hbl, ha]

/-- Witness for the amended C3 at the concrete input `inNoAncestors`. -/
theorem C3_empty_ancestors_error_witness :
    inNoAncestors.blocks ≠ [] ∧
    inNoAncestors.witness.ancestors = [] ∧
    inNoAncestors.chainConfig.chainID.isSome ∧
    Execute extJ inNoAncestors =
      ((none,
        some "failed to prepare execution exec params: no ancestors provided"),
       [.storeCreated, .chainCreated, .headersWritten, .codesWritten,
        .nodesWritten]) :=
  ⟨by simp [inNoAncestors], rfl, rfl,
    C3_empty_ancestors_error extJ inNoAncestors (by simp [inNoAncestors])
      rfl rfl⟩

/-- Claim C1, code divergence: on `inLinkBroken` the first ancestor is not
the parent of the first block (its hash `5` differs from the block's declared
parent hash `7`), yet `Execute` returns no linkage error at all — it opens
the pre-state view and runs the EVM driver to completion.  The guard at
`execute.go:141` compares the ancestor's hash with the block's *own* hash
instead of the block's declared parent hash, so it only rejects an ancestor
identical to the block itself. -/
theorem C1_linkage_check_divergence :
    extJ.headerHash hdrA ≠ blkX.header.parentHash ∧
    inLinkBroken.witness.ancestors = [some hdrA] ∧
    inLinkBroken.blocks = [blkX] ∧
    (Execute extJ inLinkBroken).1.2 = none ∧
    Event.preStateOpened ∈ (Execute extJ inLinkBroken).2 ∧
    Event.evmInvoked ∈ (Execute extJ inLinkBroken).2 := by
  refine ⟨by decide, rfl, rfl, rfl, ?_, ?_⟩ <;> decide

/-- The EVM stage always records exactly one driver invocation. -/
theorem execEVM_log (ext : Ext) (p : ExecParams) :
    (execEVM ext p).2 = [Event.evmInvoked] := by
  unfold execEVM
  rcases ext.evmExec p with ⟨res, _ | e⟩ <;> rfl

/-- Claim C4: once the emptiness and first-ancestor checks pass, the
pre-state view is opened at the first ancestor's state root against the
populated witness store; if that opening fails, `Execute` returns a
distinguishable failure naming the parent root, and neither the view-opened
nor the EVM-invoked event ever occurs. -/
theorem C4_missing_root_failure (ext : Ext) (inputs : ProverInput)
    (b0 : Block) (bs : List Block) (ph : Header) (anc : List (Option Header))
    (e : Err)
    (hb : inputs.blocks = b0 :: bs)
    (ha : inputs.witness.ancestors = some ph :: anc)
    (hlink : ext.headerHash ph ≠ ext.headerHash b0.header)
    (hc : inputs.chainConfig.chainID.isSome)
    (hsn : ext.stateNew ph.root (witnessStore inputs.witness) = .error e) :
    Execute ext inputs =
      ((none,
        some ("failed to prepare execution exec params: "
          ++ ("failed to create pre-state from parent root "
            ++ toString ph.root ++ ": " ++ e))),
       [.storeCreated, .chainCreated, .headersWritten, .codesWritten,
        .nodesWritten]) := by
  obtain ⟨c, hcc⟩ := Option.isSome_iff_exists.mp hc
  have hstore : witnessStore inputs.witness =
      Store.mk inputs.witness.ancestors inputs.witness.codes
        inputs.witness.state := rfl
  rw [hstore, ha] at hsn
  simp [Execute, execute, prepareContext, newChain, hcc, preparePreState,
    writeHeaders, writeCodes, writeNodesToHashDB, Store.empty,
    prepareExecParams, hb, ha, hlink, hsn]

/-- Witness for C4 at the concrete input `inMissingRoot`, whose witness
carries no trie node for the parent root `33`. -/
theorem C4_missing_root_failure_witness :
    extJ.headerHash hdrA ≠ extJ.headerHash blkX.header ∧
    extJ.stateNew hdrA.root (witnessStore inMissingRoot.witness) =
      .error "missing trie node" ∧
    Execute extJ inMissingRoot =
      ((none,
        some ("failed to prepare execution exec params: "
          ++ ("failed to create pre-state from parent root "
            ++ toString hdrA.root ++ ": " ++ "missing trie node"))),
       [.storeCreated, .chainCreated, .headersWritten, .codesWritten,
        .nodesWritten]) :=
  ⟨by decide, rfl,
    C4_missing_root_failure extJ inMissingRoot blkX [] hdrA [] "missing trie node"
      rfl rfl (by decide) rfl rfl⟩

/-- Claim C5: when parameter preparation succeeds, the pipeline hands the EVM
driver exactly the bundle consisting of the first block, the chain context
built from the input's chain configuration, the pre-state view opened at the
first ancestor's state root against the witness store, `validate = true`, and
stateless self-validation enabled; the outcome of `execute` is the driver's
outcome on that exact bundle. -/
theorem C5_param_bundle_exact (ext : Ext) (inputs : ProverInput)
    (b0 : Block) (bs : List Block) (ph : Header) (anc : List (Option Header))
    (v : StateView)
    (hb : inputs.blocks = b0 :: bs)
    (ha : inputs.witness.ancestors = some ph :: anc)
    (hlink : ext.headerHash ph ≠ ext.headerHash b0.header)
    (hc : inputs.chainConfig.chainID.isSome)
    (hsn : ext.stateNew ph.root (witnessStore inputs.witness) = .ok v) :
    execute ext inputs =
      ((execEVM ext
          { vmConfig := ⟨true⟩
            block := b0
            validate := true
            chain := ⟨inputs.chainConfig⟩
            state := v }).1,
       [.storeCreated, .chainCreated, .headersWritten, .codesWritten,
        .nodesWritten, .preStateOpened, .evmInvoked]) := by
  obtain ⟨c, hcc⟩ := Option.isSome_iff_exists.mp hc
  have hstore : witnessStore inputs.witness =
      Store.mk inputs.witness.ancestors inputs.witness.codes
        inputs.witness.state := rfl
  rw [hstore, ha] at hsn
  simp [execute, prepareContext, newChain, hcc, preparePreState,
    writeHeaders, writeCodes, writeNodesToHashDB, Store.empty,
    prepareExecParams, hb, ha, hlink, hsn, execEVM_log]

/-- Witness for C5 at the concrete input `inLinkBroken`, on which the
pre-state view opens successfully and the driver runs. -/
theorem C5_param_bundle_exact_witness :
    extJ.headerHash hdrA ≠ extJ.headerHash blkX.header ∧
    extJ.stateNew hdrA.root (witnessStore inLinkBroken.witness) =
      .ok ⟨33, witnessStore inLinkBroken.witness⟩ ∧
    execute extJ inLinkBroken =
      ((execEVM extJ
          { vmConfig := ⟨true⟩
            block := blkX
            validate := true
            chain := ⟨⟨some 1⟩⟩
            state := ⟨33, witnessStore inLinkBroken.witness⟩ }).1,
       [.storeCreated, .chainCreated, .headersWritten, .codesWritten,
        .nodesWritten, .preStateOpened, .evmInvoked]) :=
  ⟨by decide, rfl,
    C5_param_bundle_exact extJ inLinkBroken blkX [] hdrA []
      ⟨33, witnessStore inLinkBroken.witness⟩ rfl rfl (by decide) rfl rfl⟩

/-- Claim C6: provided the EVM driver itself returns a result exactly when it
returns no error (the spec's contract for the Stateless Execution Driver),
`Execute` either succeeds with a result and no error, or fails with an error
and no usable result — never both. -/
theorem C6_result_xor_error (ext : Ext) (inputs : ProverInput)
    (hdrv : ∀ p : ExecParams,
      ((ext.evmExec p).1.isSome ∧ (ext.evmExec p).2 = none) ∨
      ((ext.evmExec p).1 = none ∧ (ext.evmExec p).2.isSome)) :
    ((Execute ext inputs).1.1.isSome ∧ (Execute ext inputs).1.2 = none) ∨
    ((Execute ext inputs).1.1 = none ∧ (Execute ext inputs).1.2.isSome) := by
  rcases hbl : inputs.blocks with _ | ⟨b0, bs⟩
  · right
    simp [Execute, hbl]
  · have hexec : Execute ext inputs = execute ext inputs := by
      simp [Execute, hbl]
    rw [hexec]
    unfold execute
    rcases hpc : prepareContext inputs with ⟨ec, log1⟩
    rcases ec with e | execCtx
    · right; simp [hpc]
    · rcases hpp : prepareExecParams ext
          (preparePreState execCtx inputs).1 inputs with ⟨ep, log3⟩
      rcases ep with e | execParams
      · right; simp [hpc, hpp]
      · rcases hev : ext.evmExec execParams with ⟨res, err⟩
        rcases hdrv execParams with ⟨h1, h2⟩ | ⟨h1, h2⟩ <;>
          rw [hev] at h1 h2 <;> simp at h1 h2
        · left
          simp [hpc, hpp, execEVM, hev, h2, h1]
        · right
          rcases herr : err with _ | e0
          · rw [herr] at h2; simp at h2
          · simp [hpc, hpp, execEVM, hev, herr, h1]

/-- Witness for C6 at the concrete input `inLinkBroken` with the concrete
always-succeeding driver of `extJ`. -/
theorem C6_result_xor_error_witness :
    ((Execute extJ inLinkBroken).1.1.isSome ∧
      (Execute extJ inLinkBroken).1.2 = none) ∨
    ((Execute extJ inLinkBroken).1.1 = none ∧
      (Execute extJ inLinkBroken).1.2.isSome) :=
  C6_result_xor_error extJ inLinkBroken (fun _ => Or.inl ⟨rfl, rfl⟩)

/-- `prepareExecParams` either fails having emitted no event, or succeeds
having emitted exactly the view-opened event. -/
theorem prepareExecParams_cases (ext : Ext) (ctx : ExecutorContext)
    (inputs : ProverInput) :
    (∃ e, prepareExecParams ext ctx inputs = (.error e, [])) ∨
    (∃ p, prepareExecParams ext ctx inputs = (.ok p, [Event.preStateOpened])) := by
  unfold prepareExecParams
  rcases inputs.blocks with _ | ⟨b0, bs⟩
  · exact Or.inl ⟨_, rfl⟩
  · rcases inputs.witness.ancestors with _ | ⟨a0, anc⟩
    · exact Or.inl ⟨_, rfl⟩
    · rcases a0 with _ | ph
      · exact Or.inl ⟨_, rfl⟩
      · by_cases hh : ext.headerHash ph = ext.headerHash b0.header
        · simp only [if_pos hh]
          exact Or.inl ⟨_, rfl⟩
        · simp only [if_neg hh]
          rcases ext.stateNew ph.root ctx.stateDB with e | v
          · exact Or.inl ⟨_, rfl⟩
          · exact Or.inr ⟨_, rfl⟩

/-- Claim C7: whenever `Execute` fails on a non-empty block list, the
returned error is the failing stage's internal error wrapped with that
stage's context message, and the event log shows the later stages never ran
and no stage ran twice. -/
theorem C7_stage_context_wrapping (ext : Ext) (inputs : ProverInput) (e : Err)
    (hb : inputs.blocks ≠ [])
    (he : (Execute ext inputs).1.2 = some e) :
    (∃ e0, (prepareContext inputs).1 = .error e0 ∧
      e = "failed to prepare execution context: " ++ e0 ∧
      (Execute ext inputs).2 = [.storeCreated]) ∨
    (∃ e0 execCtx, (prepareContext inputs).1 = .ok execCtx ∧
      (prepareExecParams ext (preparePreState execCtx inputs).1 inputs).1 =
        .error e0 ∧
      e = "failed to prepare execution exec params: " ++ e0 ∧
      (Execute ext inputs).2 =
        [.storeCreated, .chainCreated, .headersWritten, .codesWritten,
         .nodesWritten]) ∨
    (∃ e0 execCtx p, (prepareContext inputs).1 = .ok execCtx ∧
      (prepareExecParams ext (preparePreState execCtx inputs).1 inputs).1 =
        .ok p ∧
      (ext.evmExec p).2 = some e0 ∧
      e = "failed to execute block: " ++ e0 ∧
      (Execute ext inputs).2 =
        [.storeCreated, .chainCreated, .headersWritten, .codesWritten,
         .nodesWritten, .preStateOpened, .evmInvoked]) := by
  have hexec : Execute ext inputs = execute ext inputs := by
    rcases hbl : inputs.blocks with _ | ⟨b0, bs⟩
    · exact absurd hbl hb
    · simp [Execute, hbl]
  rcases hid : inputs.chainConfig.chainID with _ | c
  · have hpc : prepareContext inputs =
        (.error ("failed to create chain: " ++ "missing chain ID"),
         [.storeCreated]) := by
      simp [prepareContext, newChain, hid]
    have hex : execute ext inputs =
        ((none,
          some ("failed to prepare execution context: "
            ++ ("failed to create chain: " ++ "missing chain ID"))),
         [.storeCreated]) := by
      unfold execute; rw [hpc]
    rw [hexec, hex] at he
    left
    exact ⟨"failed to create chain: " ++ "missing chain ID", by rw [hpc],
      (Option.some.inj he).symm, by rw [hexec, hex]⟩
  · have hpc : prepareContext inputs =
        (.ok ⟨Store.empty, ⟨inputs.chainConfig⟩⟩,
         [.storeCreated, .chainCreated]) := by
      simp [prepareContext, newChain, hid]
    rcases prepareExecParams_cases ext
        ⟨⟨inputs.witness.ancestors, inputs.witness.codes,
          inputs.witness.state⟩, ⟨inputs.chainConfig⟩⟩ inputs
      with ⟨e0, hpp⟩ | ⟨p, hpp⟩
    · have hex : execute ext inputs =
          ((none, some ("failed to prepare execution exec params: " ++ e0)),
           [.storeCreated, .chainCreated, .headersWritten, .codesWritten,
            .nodesWritten]) := by
        unfold execute
        rw [hpc]
        simp [hpp, preparePreState, writeHeaders, writeCodes,
          writeNodesToHashDB, Store.empty]
      rw [hexec, hex] at he
      right; left
      refine ⟨e0, ⟨Store.empty, ⟨inputs.chainConfig⟩⟩, by rw [hpc], ?_,
        (Option.some.inj he).symm, by rw [hexec, hex]⟩
      simp [preparePreState, writeHeaders, writeCodes, writeNodesToHashDB,
        Store.empty, hpp]
    · rcases hev : ext.evmExec p with ⟨res, err⟩
      rcases err with _ | e0
      · have hex : (execute ext inputs).1.2 = none := by
          unfold execute
          rw [hpc]
          simp [hpp, execEVM, hev, preparePreState, writeHeaders, writeCodes,
            writeNodesToHashDB, Store.empty]
        rw [hexec, hex] at he
        exact absurd he (by simp)
      · have hex : execute ext inputs =
            ((res, some ("failed to execute block: " ++ e0)),
             [.storeCreated, .chainCreated, .headersWritten, .codesWritten,
              .nodesWritten, .preStateOpened, .evmInvoked]) := by
          unfold execute
          rw [hpc]
          simp [hpp, execEVM, hev, preparePreState, writeHeaders, writeCodes,
            writeNodesToHashDB, Store.empty]
        rw [hexec, hex] at he
        right; right
        refine ⟨e0, ⟨Store.empty, ⟨inputs.chainConfig⟩⟩, p, by rw [hpc], ?_,
          by rw [hev], (Option.some.inj he).symm, by rw [hexec, hex]⟩
        simp [preparePreState, writeHeaders, writeCodes, writeNodesToHashDB,
          Store.empty, hpp]

/-- Witness for C7 at the concrete input `inNoAncestors`, which fails in the
parameter-preparation stage. -/
theorem C7_stage_context_wrapping_witness :
    (∃ e0, (prepareContext inNoAncestors).1 = .error e0 ∧
      "failed to prepare execution exec params: no ancestors provided" =
        "failed to prepare execution context: " ++ e0 ∧
      (Execute extJ inNoAncestors).2 = [.storeCreated]) ∨
    (∃ e0 execCtx, (prepareContext inNoAncestors).1 = .ok execCtx ∧
      (prepareExecParams extJ (preparePreState execCtx inNoAncestors).1
        inNoAncestors).1 = .error e0 ∧
      "failed to prepare execution exec params: no ancestors provided" =
        "failed to prepare execution exec params: " ++ e0 ∧
      (Execute extJ inNoAncestors).2 =
        [.storeCreated, .chainCreated, .headersWritten, .codesWritten,
         .nodesWritten]) ∨
    (∃ e0 execCtx p, (prepareContext inNoAncestors).1 = .ok execCtx ∧
      (prepareExecParams extJ (preparePreState execCtx inNoAncestors).1
        inNoAncestors).1 = .ok p ∧
      (extJ.evmExec p).2 = some e0 ∧
      "failed to prepare execution exec params: no ancestors provided" =
        "failed to execute block: " ++ e0 ∧
      (Execute extJ inNoAncestors).2 =
        [.storeCreated, .chainCreated, .headersWritten, .codesWritten,
         .nodesWritten, .preStateOpened, .evmInvoked]) :=
  C7_stage_context_wrapping extJ inNoAncestors
    "failed to prepare execution exec params: no ancestors provided"
    (by simp [inNoAncestors]) (by decide)

/-- Claim C8: two inputs agreeing on the chain configuration, the witness and
the first block produce identical outcomes — trailing blocks have no
influence on `Execute`. -/
theorem C8_trailing_blocks_irrelevant (ext : Ext) (inA inB : ProverInput)
    (hcfg : inA.chainConfig = inB.chainConfig)
    (hwit : inA.witness = inB.witness)
    (hhd : inA.blocks.head? = inB.blocks.head?) :
    Execute ext inA = Execute ext inB := by
  rcases ha : inA.blocks with _ | ⟨a0, as⟩ <;>
    rcases hbb : inB.blocks with _ | ⟨b0, bs⟩ <;>
      rw [ha, hbb] at hhd <;> simp at hhd
  · simp [Execute, ha, hbb]
  · subst hhd
    simp [Execute, execute, ha, hbb, prepareContext, newChain, hcfg,
      preparePreState, prepareExecParams, hwit]

/-- Witness for C8: `inLinkBroken` and its extension with a trailing block
yield identical outcomes. -/
theorem C8_trailing_blocks_irrelevant_witness :
    inLinkBroken.chainConfig = inLinkBrokenTrail.chainConfig ∧
    inLinkBroken.witness = inLinkBrokenTrail.witness ∧
    inLinkBroken.blocks.head? = inLinkBrokenTrail.blocks.head? ∧
    Execute extJ inLinkBroken = Execute extJ inLinkBrokenTrail :=
  ⟨rfl, rfl, rfl,
    C8_trailing_blocks_irrelevant extJ inLinkBroken inLinkBrokenTrail
      rfl rfl rfl⟩

/-- Claim C9: `Execute` is deterministic — two runs on the same input (with
the same external collaborators) return identical outcomes, result, error
and event log alike; the embedding is a pure function whose store is built
afresh from the input on every call. -/
theorem C9_deterministic (ext : Ext) (inputs : ProverInput)
    (r1 r2 : (Option ProcessResult × Option Err) × List Event)
    (h1 : r1 = Execute ext inputs) (h2 : r2 = Execute ext inputs) :
    r1 = r2 := by
  rw [h1, h2]

/-- Witness for C9: two runs on `inLinkBroken` coincide. -/
theorem C9_deterministic_witness :
    Execute extJ inLinkBroken = Execute extJ inLinkBroken :=
  C9_deterministic extJ inLinkBroken _ _ rfl rfl

/-- Claim C10: a nil first ancestor on a non-empty block list (with a
well-formed chain configuration) is rejected with the wrapped linkage error
message, before the pre-state view is opened and before the EVM runs. -/
theorem C10_nil_first_ancestor_rejected (ext : Ext) (inputs : ProverInput)
    (anc : List (Option Header))
    (hb : inputs.blocks ≠ [])
    (ha : inputs.witness.ancestors = none :: anc)
    (hc : inputs.chainConfig.chainID.isSome) :
    Execute ext inputs =
      ((none,
        some ("failed to prepare execution exec params: "
          ++ "first ancestor must be the parent of the first block")),
       [.storeCreated, .chainCreated, .headersWritten, .codesWritten,
        .nodesWritten]) := by
  obtain ⟨c, hcc⟩ := Option.isSome_iff_exists.mp hc
  rcases hbl : inputs.blocks with _ | ⟨b0, bs⟩
  · exact absurd hbl hb
  · simp [Execute, execute, prepareContext, newChain, hcc, preparePreState,
      prepareExecParams, hbl, ha]

/-- Witness for C10 at the concrete input `inNilAncestor`. -/
theorem C10_nil_first_ancestor_rejected_witness :
    inNilAncestor.blocks ≠ [] ∧
    inNilAncestor.witness.ancestors = none :: [some hdrA] ∧
    inNilAncestor.chainConfig.chainID.isSome ∧
    Execute extJ inNilAncestor =
      ((none,
        some ("failed to prepare execution exec params: "
          ++ "first ancestor must be the parent of the first block")),
       [.storeCreated, .chainCreated, .headersWritten, .codesWritten,
        .nodesWritten]) :=
  ⟨by simp [inNilAncestor], rfl, rfl,
    C10_nil_first_ancestor_rejected extJ inNilAncestor [some hdrA]
      (by simp [inNilAncestor]) rfl rfl⟩

end ZkPig
